import Mathlib

/-!
Shallow embedding of `src/src/emulator/registers.rs` (Trikzon/chirp-8):
the CHIP-8 register file.

Modelling conventions:
- `u8` and `u16` values are `Nat`s; where the Rust code can overflow a
  machine integer the embedding reduces modulo `2^16` explicitly.
- The `v: [u8; 16]` array is a `List Nat`; since a Lean structure cannot
  carry the fixed length in the list type the way the Rust array does,
  the length-16 fact is threaded as an explicit hypothesis where needed.
- Rust array indexing `self.v[x as usize]` can panic when out of bounds;
  it is embedded as `Option`-returning access (`none` = panic).
- `println!` diagnostics are embedded as a `Bool` component of the
  result (`true` = a diagnostic line was emitted).
- The `stack: Vec<u16>` is a `List Nat` with `Vec::push` appending at
  the end and `Vec::pop` removing from the end.
-/

/-- The CHIP-8 register file, from `struct Registers` in
`src/emulator/registers.rs`: sixteen 8-bit general registers `v`, the
16-bit address register `i`, the 16-bit program counter `pc`, and the
call stack (a growable vector of 16-bit return addresses). -/
@[ext]
structure Registers where
  v : List Nat
  i : Nat
  pc : Nat
  stack : List Nat
  deriving Repr, DecidableEq

namespace Registers

/-- `Registers::new`: all `v` slots zero, `i = 0`, `pc = 0x200`, empty stack. -/
def new : Registers :=
  { v := List.replicate 16 0
    i := 0
    pc := 0x200
    stack := [] }

/-- `Registers::v(x)`: `self.v[x as usize]`. The Rust indexing panics when
`x` is out of bounds; the embedding returns `none` in that case. -/
def v_read (r : Registers) (x : Nat) : Option Nat :=
  r.v.get? x

/-- `Registers::set_v(x, value)`: `self.v[x as usize] = value`. The Rust
indexed store panics when `x` is out of bounds; the embedding returns
`none` in that case. -/
def set_v (r : Registers) (x value : Nat) : Option Registers :=
  if x < r.v.length then some { r with v := r.v.set x value } else none

/-- `Registers::vf()`: `self.v(0x0F)`. -/
def vf (r : Registers) : Option Nat :=
  r.v_read 0x0F

/-- `Registers::set_vf(value)`: `self.set_v(0x0F, value)`. -/
def set_vf (r : Registers) (value : Nat) : Option Registers :=
  r.set_v 0x0F value

/-- `Registers::set_i(value)`: `self.i = value`. The accessor
`Registers::i()` is the structure field projection `Registers.i`. -/
def set_i (r : Registers) (value : Nat) : Registers :=
  { r with i := value }

/-- `Registers::set_pc(value)`: `self.pc = value`. The accessor
`Registers::pc()` is the structure field projection `Registers.pc`. -/
def set_pc (r : Registers) (value : Nat) : Registers :=
  { r with pc := value }

/-- `Registers::increment_pc()`: `self.pc += 2` on a `u16`, so the sum is
reduced modulo `2^16`. -/
def increment_pc (r : Registers) : Registers :=
  { r with pc := (r.pc + 2) % 2 ^ 16 }

/-- `Registers::push_stack(value)`: when `self.stack.len() > 16` a
diagnostic line is printed, then the value is pushed unconditionally.
The `Bool` records whether the diagnostic was emitted. -/
def push_stack (r : Registers) (value : Nat) : Registers × Bool :=
  ({ r with stack := r.stack ++ [value] }, decide (r.stack.length > 16))

/-- `Registers::pop_stack()`: `self.stack.pop()`; on an empty stack a
diagnostic line is printed and `0` is returned. The result is the popped
value, the new state, and whether the diagnostic was emitted. -/
def pop_stack (r : Registers) : Nat × Registers × Bool :=
  match r.stack.getLast? with
  | some a => (a, { r with stack := r.stack.dropLast }, false)
  | none => (0, r, true)

/-- Push a whole list of values in order (left to right), discarding the
diagnostic flags; used to state the stress properties of the spec. -/
def push_all (r : Registers) (vs : List Nat) : Registers :=
  vs.foldl (fun s a => (s.push_stack a).1) r

/-- Pop `n` times, collecting the popped values in order and discarding
the diagnostic flags; used to state the stress properties of the spec. -/
def pop_n (r : Registers) : Nat → List Nat × Registers
  | 0 => ([], r)
  | n + 1 =>
    let p := r.pop_stack
    let q := pop_n p.2.1 n
    (p.1 :: q.1, q.2)

theorem push_all_stack (r : Registers) (vs : List Nat) :
    (r.push_all vs).stack = r.stack ++ vs ∧
      (r.push_all vs).v = r.v ∧ (r.push_all vs).i = r.i ∧
      (r.push_all vs).pc = r.pc := by
  induction vs generalizing r with
  | nil => simp [push_all]
  | cons a vs ih =>
    have h := ih ((r.push_stack a).1)
    simpa [push_all, push_stack, List.foldl_cons, List.append_assoc] using h

theorem pop_n_reverse (r : Registers) (s vs : List Nat) (h : r.stack = s ++ vs) :
    (r.pop_n vs.length).1 = vs.reverse ∧
      (r.pop_n vs.length).2 = { r with stack := s } := by
  induction vs using List.reverseRecOn generalizing r with
  | nil =>
    constructor
    · simp [pop_n]
    · simp only [pop_n]
      cases r
      simp_all
  | append_singleton vs a ih =>
    have hlen : (vs ++ [a]).length = vs.length + 1 := by simp
    rw [hlen]
    have hpop : r.pop_stack = (a, { r with stack := s ++ vs }, false) := by
      simp [pop_stack, h, ← List.append_assoc, List.getLast?_concat,
        List.dropLast_concat]
    have hs : ({ r with stack := s ++ vs } : Registers).stack = s ++ vs := rfl
    have ihh := ih { r with stack := s ++ vs } hs
    simp only [pop_n, hpop]
    exact ⟨by simp [ihh.1], by simpa using ihh.2⟩

end Registers

/-- Claim C1: on a register-file state whose stack is empty, `pop_stack`
returns `0` (no panic: the `Option` result of `Vec::pop` is absorbed by
`unwrap_or_else`), emits the diagnostic, and leaves the state entirely
unchanged, so subsequent pushes and pops behave normally. -/
theorem pop_stack_empty_returns_zero (r : Registers) (h : r.stack = []) :
    r.pop_stack = (0, r, true) := by
  simp [Registers.pop_stack, h]

/-- Witness for C1 at the freshly constructed register file. -/
theorem pop_stack_empty_returns_zero_witness :
    Registers.new.pop_stack = (0, Registers.new, true) :=
  pop_stack_empty_returns_zero Registers.new rfl

/-- Claim C2: `push_stack` always appends its value at the end of the
stack; the diagnostic is emitted exactly when the stack length already
exceeds 16 before the push; and pushing 20 values onto a fresh register
file then popping 20 times returns them in reverse push order, leaving
the fresh state. -/
theorem push_stack_overflow_tolerant :
    (∀ (r : Registers) (value : Nat),
        (r.push_stack value).1.stack = r.stack ++ [value] ∧
          ((r.push_stack value).2 = true ↔ 16 < r.stack.length)) ∧
      ∀ vs : List Nat, vs.length = 20 →
        ((Registers.new.push_all vs).pop_n 20).1 = vs.reverse ∧
          ((Registers.new.push_all vs).pop_n 20).2 = Registers.new := by
  constructor
  · intro r value
    exact ⟨rfl, by simp [Registers.push_stack]⟩
  · intro vs h
    have hstack : (Registers.new.push_all vs).stack = [] ++ vs := by
      simpa using (Registers.push_all_stack Registers.new vs).1
    have hmain := Registers.pop_n_reverse _ [] vs hstack
    rw [← h]
    refine ⟨hmain.1, ?_⟩
    rw [hmain.2]
    have hv := Registers.push_all_stack Registers.new vs
    apply Registers.ext
    · exact hv.2.1
    · exact hv.2.2.1
    · exact hv.2.2.2
    · rfl

/-- Witness for C2 with the concrete 20-element list `0, 1, ..., 19`. -/
theorem push_stack_overflow_tolerant_witness :
    ((Registers.new.push_all (List.range 20)).pop_n 20).1 =
      (List.range 20).reverse :=
  (push_stack_overflow_tolerant.2 (List.range 20) (by decide)).1

/-- Claim C3: the stack is LIFO: from any starting state, pushing
`a, b, c` and popping three times yields `c, b, a` in that order and
restores the original state (in particular the original stack). -/
theorem stack_lifo (r : Registers) (a b c : Nat) :
    ((((r.push_stack a).1.push_stack b).1.push_stack c).1.pop_n 3) =
      ([c, b, a], r) := by
  have hstack :
      ((((r.push_stack a).1.push_stack b).1.push_stack c).1).stack =
        r.stack ++ [a, b, c] := by
    simp [Registers.push_stack]
  have h := Registers.pop_n_reverse _ r.stack [a, b, c] hstack
  have hlen : ([a, b, c] : List Nat).length = 3 := rfl
  rw [← hlen]
  refine Prod.ext h.1 ?_
  rw [h.2]
  apply Registers.ext <;> simp [Registers.push_stack]

/-- Claim C4: a freshly constructed register file has `PC = 0x200`,
every `V` slot zero, `I = 0`, and an empty stack. -/
theorem new_initial_state :
    Registers.new.pc = 0x200 ∧
      (∀ x, x < 16 → Registers.new.v_read x = some 0) ∧
      Registers.new.i = 0 ∧ Registers.new.stack = [] := by
  refine ⟨rfl, ?_, rfl, rfl⟩
  intro x hx
  interval_cases x <;> rfl

/-- Witness for C4's quantified part at slot 5. -/
theorem new_initial_state_witness : Registers.new.v_read 5 = some 0 :=
  new_initial_state.2.1 5 (by decide)

/-- Counterexample for C5: with `PC = 0xFFFF` the `u16` addition in
`increment_pc` overflows, so the resulting `PC` is `1`, not
`0xFFFF + 2 = 0x10001`. -/
theorem increment_pc_wraps_at_max :
    (Registers.new.set_pc 0xFFFF).increment_pc.pc ≠ 0xFFFF + 2 := by
  decide

/-- Claim C5 (amended): whenever `PC + 2` still fits in 16 bits,
`increment_pc` yields `PC + 2`; in particular two consecutive increments
from the fresh state's `PC = 0x200` yield `0x204`. (For `PC ≥ 0xFFFE`
the `u16` addition overflows instead of producing `PC + 2`.) -/
theorem increment_pc_adds_two (r : Registers) (h : r.pc + 2 < 2 ^ 16) :
    r.increment_pc.pc = r.pc + 2 ∧
      Registers.new.increment_pc.increment_pc.pc = 0x204 :=
  ⟨Nat.mod_eq_of_lt h, by decide⟩

/-- Witness for C5 at the fresh state: `0x200 + 2 = 0x202`. -/
theorem increment_pc_adds_two_witness :
    Registers.new.increment_pc.pc = 0x200 + 2 :=
  (increment_pc_adds_two Registers.new (by decide)).1

/-- Claim C6: for any state with the 16-slot `V` array and any index
`x < 16`, `set_v x value` succeeds (no index panic), a following read of
slot `x` returns `value`, and every other slot `y ≠ x` is unchanged. -/
theorem set_v_roundtrip (r : Registers) (x value : Nat)
    (hlen : r.v.length = 16) (hx : x < 16) :
    ∃ r', r.set_v x value = some r' ∧ r'.v_read x = some value ∧
      ∀ y, y < 16 → y ≠ x → r'.v_read y = r.v_read y := by
  have hx' : x < r.v.length := hlen ▸ hx
  refine ⟨{ r with v := r.v.set x value }, ?_, ?_, ?_⟩
  · simp [Registers.set_v, hx']
  · simp [Registers.v_read, List.getElem?_set_eq_of_lt _ hx']
  · intro y hy hyx
    simp [Registers.v_read, List.getElem?_set_ne (Ne.symm hyx)]

/-- Witness for C6 at the fresh state, slot 3, value 7. -/
theorem set_v_roundtrip_witness :
    ∃ r', Registers.new.set_v 3 7 = some r' ∧ r'.v_read 3 = some 7 ∧
      ∀ y, y < 16 → y ≠ 3 → r'.v_read y = Registers.new.v_read y :=
  set_v_roundtrip Registers.new 3 7 (by decide) (by decide)

/-- Claim C7: the `VF` accessors alias slot `V[15]`: on a 16-slot state,
`set_vf value` succeeds and a read of slot 15 returns `value`;
`set_v 15 value` succeeds and `vf` returns `value`; and `set_vf` is the
very same state transformer as `set_v 15`. -/
theorem vf_aliases_v15 :
    (∀ (r : Registers) (value : Nat), r.v.length = 16 →
        (∃ r', r.set_vf value = some r' ∧ r'.v_read 15 = some value) ∧
          ∃ r', r.set_v 15 value = some r' ∧ r'.vf = some value) ∧
      ∀ (r : Registers) (value : Nat), r.set_vf value = r.set_v 15 value := by
  refine ⟨?_, fun r value => rfl⟩
  intro r value hlen
  have h15 : (15 : Nat) < r.v.length := hlen ▸ (by decide)
  constructor
  · exact ⟨{ r with v := r.v.set 15 value },
      by simp [Registers.set_vf, Registers.set_v, h15],
      by simp [Registers.v_read, List.getElem?_set_eq_of_lt _ h15]⟩
  · exact ⟨{ r with v := r.v.set 15 value },
      by simp [Registers.set_v, h15],
      by simp [Registers.vf, Registers.v_read, List.getElem?_set_eq_of_lt _ h15]⟩

/-- Witness for C7 at the fresh state with value 9. -/
theorem vf_aliases_v15_witness :
    ∃ r', Registers.new.set_vf 9 = some r' ∧ r'.v_read 15 = some 9 :=
  (vf_aliases_v15.1 Registers.new 9 (by decide)).1

/-- Claim C8: the `I` register is stored and read back verbatim: for
every 16-bit `value`, `set_i value` then reading `i` returns exactly
`value`; in particular no 12-bit mask is applied to `0xFFFF`. -/
theorem set_i_verbatim (r : Registers) (value : Nat) (h : value < 2 ^ 16) :
    (r.set_i value).i = value ∧ (Registers.new.set_i 0xFFFF).i = 0xFFFF :=
  ⟨rfl, rfl⟩

/-- Witness for C8 at the fresh state with value `0xFFFF`. -/
theorem set_i_verbatim_witness : (Registers.new.set_i 0xFFFF).i = 0xFFFF :=
  (set_i_verbatim Registers.new 0xFFFF (by decide)).1

/-- Claim C9: on a 16-slot state, indexing with `x < 16` is in bounds
for both `v_read` and `set_v` (the panic branch, `none`, is
unreachable), while any `x ≥ 16` hits the unchecked indexing panic
(`none`) rather than a handled runtime condition: the component itself
performs no range check that would turn it into a normal result. -/
theorem v_index_contract (r : Registers) (x value : Nat)
    (hlen : r.v.length = 16) :
    (x < 16 → (r.v_read x).isSome ∧ (r.set_v x value).isSome) ∧
      (16 ≤ x → r.v_read x = none ∧ r.set_v x value = none) := by
  constructor
  · intro hx
    have hx' : x < r.v.length := hlen ▸ hx
    constructor
    · simp only [Registers.v_read, List.get?_eq_getElem?,
        List.getElem?_eq_getElem hx']
      rfl
    · simp [Registers.set_v, hx']
  · intro hx
    have hx' : r.v.length ≤ x := hlen ▸ hx
    constructor
    · simp only [Registers.v_read, List.get?_eq_getElem?,
        List.getElem?_eq_none hx']
    · simp [Registers.set_v, Nat.not_lt.2 hx']

/-- Witness for C9 at the fresh state: index 2 is in bounds, index 16 panics. -/
theorem v_index_contract_witness :
    (Registers.new.v_read 2).isSome ∧ Registers.new.set_v 16 0 = none :=
  ⟨((v_index_contract Registers.new 2 0 (by decide)).1 (by decide)).1,
    ((v_index_contract Registers.new 16 0 (by decide)).2 (by decide)).2⟩

/-- Claim C10: every mutator touches only its own field: `push_stack`
and `pop_stack` leave `v`, `i`, `pc` unchanged; `increment_pc` and
`set_pc` leave `v`, `i`, the stack unchanged; `set_i` leaves `v`, `pc`,
the stack unchanged; a successful `set_v` leaves `i`, `pc`, the stack
unchanged. -/
theorem mutators_frame (r : Registers) (x value : Nat) (r' : Registers) :
    ((r.push_stack value).1.v = r.v ∧ (r.push_stack value).1.i = r.i ∧
        (r.push_stack value).1.pc = r.pc) ∧
      (r.pop_stack.2.1.v = r.v ∧ r.pop_stack.2.1.i = r.i ∧
        r.pop_stack.2.1.pc = r.pc) ∧
      (r.increment_pc.v = r.v ∧ r.increment_pc.i = r.i ∧
        r.increment_pc.stack = r.stack) ∧
      ((r.set_pc value).v = r.v ∧ (r.set_pc value).i = r.i ∧
        (r.set_pc value).stack = r.stack) ∧
      ((r.set_i value).v = r.v ∧ (r.set_i value).pc = r.pc ∧
        (r.set_i value).stack = r.stack) ∧
      (r.set_v x value = some r' →
        r'.i = r.i ∧ r'.pc = r.pc ∧ r'.stack = r.stack) := by
  refine ⟨⟨rfl, rfl, rfl⟩, ?_, ⟨rfl, rfl, rfl⟩, ⟨rfl, rfl, rfl⟩,
    ⟨rfl, rfl, rfl⟩, ?_⟩
  · cases h : r.stack.getLast? <;> simp [Registers.pop_stack, h]
  · intro hset
    rw [Registers.set_v] at hset
    by_cases hx : x < r.v.length
    · rw [if_pos hx] at hset
      cases hset
      exact ⟨rfl, rfl, rfl⟩
    · rw [if_neg hx] at hset
      exact absurd hset (by simp)

/-- Witness for C10: the `set_v` frame condition at the fresh state,
slot 0, value 5. -/
theorem mutators_frame_witness :
    ({ v := (List.replicate 16 0).set 0 5, i := 0, pc := 0x200,
        stack := [] } : Registers).i = Registers.new.i ∧
      ({ v := (List.replicate 16 0).set 0 5, i := 0, pc := 0x200,
          stack := [] } : Registers).pc = Registers.new.pc ∧
        ({ v := (List.replicate 16 0).set 0 5, i := 0, pc := 0x200,
            stack := [] } : Registers).stack = Registers.new.stack :=
  (mutators_frame Registers.new 0 5 _).2.2.2.2.2 (by decide)
